import Mathlib

/-!
Shallow embedding of `avr-hokey.cpp` (a reaction-timing game for an AVR
microcontroller) and verification of its specification.

Modelling conventions:
* The C++ `int` fields of `game_manager` (`m_score`, `m_position`,
  `m_bar_count`, `m_bar_speed_recip`, `m_button_invalid_time`,
  `m_blink_count`) are embedded as `Nat`: each is initialised to a
  non-negative value and every mutation in the source keeps it
  non-negative (the single decrement of `m_button_invalid_time` is guarded
  by `> 0`, matching truncated `Nat` subtraction).
* `calc_speed_recip` is computed over `Int` with C truncating division
  (`Int.tdiv`) to mirror the C++ `int` arithmetic exactly.
* `rand()` is impure in the source; each tick's potential `rand()` result
  enters as the `rand` field of `Inputs` (`% 40` / `% 10` is applied where
  the source applies it).
* The three switches are active-low with pull-ups; the source tests
  `!switch.read()` for "pressed", embedded here as the Booleans
  `pressPlay`, `pressHS`, `pressErase` of `Inputs`.
* EEPROM is a single byte cell; the pair `HighScoreStore` carries the
  in-memory cache `mem` and the durable cell `eeprom`, and the store
  operations additionally return whether a durable write was issued.
* Writes to the display and the LED bar performed by a state handler are
  collected in a `TickOut` record instead of mutating a global.
-/

/-- MAX_SCORE from the source. -/
def MAX_SCORE : Nat := 99

/-- FRAME_PER_SEC: timer-interrupt (tick) frequency from the source. -/
def FRAME_PER_SEC : Nat := 500

namespace seven_segments_data

def A : Nat := 0x01
def B : Nat := 0x02
def C : Nat := 0x04
def D : Nat := 0x08
def E : Nat := 0x10
def F : Nat := 0x20
def G : Nat := 0x40

/-- Segment pattern table for the digits 0–9 (`segment_data` in the source). -/
def segment_data : Nat → Nat
  | 0 => A + B + C + D + E + F
  | 1 => B + C
  | 2 => A + B + D + E + G
  | 3 => A + B + C + D + G
  | 4 => B + C + F + G
  | 5 => A + C + D + F + G
  | 6 => A + C + D + E + F + G
  | 7 => A + B + C + F
  | 8 => A + B + C + D + E + F + G
  | 9 => A + B + C + D + F + G
  | _ => 0

end seven_segments_data

/-- State of one `seven_segments` digit: the 7-bit pattern currently driven
on the segment output pins. -/
structure seven_segments where
  pattern : Nat
deriving DecidableEq

/-- `seven_segments::set_number`: out-of-range digits are ignored, otherwise
the segment pins are driven from the pattern table. (`n` is `Nat` here, so
only the `n >= 10` half of the source's range check remains.) -/
def seven_segments.set_number (s : seven_segments) (n : Nat) : seven_segments :=
  if n ≥ 10 then s else { pattern := seven_segments_data.segment_data n }

/-- `seven_segments::erase_number`: all segment pins reset. -/
def seven_segments.erase_number (_ : seven_segments) : seven_segments :=
  { pattern := 0 }

/-- `pow10` from `seven_segments_dynamic`. -/
def pow10 : Nat → Nat
  | 0 => 1
  | n + 1 => 10 * pow10 n

/-- State of `seven_segments_dynamic<Digit>`.  `cathodeLow i = true` means
cathode line `i` is driven low, i.e. that digit slot is enabled (lit); the
hardware is cathode-common, so the source's `set()` disables a slot and
`reset()` enables it. -/
structure seven_segments_dynamic (Digit : Nat) where
  display : seven_segments
  cathodeLow : Nat → Bool
  valid : Bool
  value : Nat
  now_digit : Nat

/-- `seven_segments_dynamic::set_number`: a value with too many digits blanks
the display instead of being latched. -/
def seven_segments_dynamic.set_number {d : Nat} (s : seven_segments_dynamic d)
    (value : Nat) : seven_segments_dynamic d :=
  if value ≥ pow10 d then
    { s with valid := false, display := s.display.erase_number }
  else
    { s with valid := true, value := value }

/-- `seven_segments_dynamic::erase_number`. -/
def seven_segments_dynamic.erase_number {d : Nat} (s : seven_segments_dynamic d) :
    seven_segments_dynamic d :=
  { s with valid := false, display := s.display.erase_number }

/-- First action of `change_digit`: `m_cathode[m_now_digit].set()` — disable
the slot that was active in the previous call. -/
def seven_segments_dynamic.cd_disable {d : Nat} (s : seven_segments_dynamic d) :
    seven_segments_dynamic d :=
  { s with cathodeLow := fun i => if i = s.now_digit then false else s.cathodeLow i }

/-- Second action of `change_digit`: advance `m_now_digit`, wrapping at `Digit`. -/
def seven_segments_dynamic.cd_advance {d : Nat} (s : seven_segments_dynamic d) :
    seven_segments_dynamic d :=
  let n := s.now_digit + 1
  { s with now_digit := if n = d then 0 else n }

/-- Third action of `change_digit`: if a value is latched, render the decimal
digit of the newly current slot on the segment lines. -/
def seven_segments_dynamic.cd_render {d : Nat} (s : seven_segments_dynamic d) :
    seven_segments_dynamic d :=
  if s.valid then
    { s with display := s.display.set_number (s.value / pow10 s.now_digit % 10) }
  else s

/-- Last action of `change_digit`: `m_cathode[m_now_digit].reset()` — enable
the new slot. -/
def seven_segments_dynamic.cd_enable {d : Nat} (s : seven_segments_dynamic d) :
    seven_segments_dynamic d :=
  { s with cathodeLow := fun i => if i = s.now_digit then true else s.cathodeLow i }

/-- `seven_segments_dynamic::change_digit`, as the composition of its four
actions in source order. -/
def seven_segments_dynamic.change_digit {d : Nat} (s : seven_segments_dynamic d) :
    seven_segments_dynamic d :=
  s.cd_disable.cd_advance.cd_render.cd_enable

/-- High-score store: the in-memory cache `m_high_score` together with the
durable EEPROM byte it mirrors. -/
structure HighScoreStore where
  mem : Nat
  eeprom : Nat
deriving DecidableEq

/-- `high_score_manager::get_high_score`. -/
def get_high_score (st : HighScoreStore) : Nat := st.mem

/-- `high_score_manager::update_high_score`: writes memory and EEPROM only on
a strict improvement.  The Boolean reports whether a durable write was
issued. -/
def update_high_score (st : HighScoreStore) (score : Nat) : HighScoreStore × Bool :=
  if score > st.mem then ({ mem := score, eeprom := score }, true) else (st, false)

/-- `high_score_manager::erase_hight_score` (name as in the source): clears
to zero, skipping the EEPROM write when already zero. -/
def erase_hight_score (st : HighScoreStore) : HighScoreStore × Bool :=
  if st.mem = 0 then (st, false) else ({ mem := 0, eeprom := 0 }, true)

/-- The `high_score_manager` constructor: loads the raw EEPROM byte into the
cache (`b` is the byte stored in the cell; `% 256` is the `uint8_t` read). -/
def high_score_manager_init (b : Nat) : HighScoreStore :=
  { mem := b % 256, eeprom := b % 256 }

/-- The five states of the game state machine (the source dispatches through
the member-function pointer `m_update_func`). -/
inductive Mode
  | readyToStart
  | showingHighScore
  | playing
  | scoreBlink
  | showingScore
deriving DecidableEq

/-- Per-tick inputs: the three switches (already negated: `true` = pressed)
and the value the next `rand()` call would return, if one is made. -/
structure Inputs where
  pressPlay : Bool
  pressHS : Bool
  pressErase : Bool
  rand : Nat
deriving DecidableEq

/-- A command issued to the two-digit score display during a tick. -/
inductive DispCmd
  | showNum (v : Nat)
  | blank
deriving DecidableEq

/-- A command issued to the LED bar during a tick (`keep` = no call made). -/
inductive BarCmd
  | setPos (p : Nat)
  | eraseBar
  | keep
deriving DecidableEq

/-- The display and bar writes a state handler performs in one tick. -/
structure TickOut where
  disp : DispCmd
  bar : BarCmd
deriving DecidableEq

/-- The mutable state of `game_manager`, plus the high-score store. -/
structure GameState where
  mode : Mode
  score : Nat
  position : Nat
  bar_count : Nat
  bar_speed_recip : Nat
  button_invalid_time : Nat
  update_hs_flag : Bool
  blink_count : Nat
  hs : HighScoreStore
deriving DecidableEq

/-- `game_manager::calc_speed_recip`:
`((30 - m_score / 5) * (80 + rand() % 40) + 50) / 100`, clamped below by 1,
computed with C truncating `int` division. -/
def calc_speed_recip (score : Nat) (r : Nat) : Nat :=
  let value : Int := Int.tdiv ((30 - Int.tdiv (score : Int) 5) * (80 + ((r % 40 : Nat) : Int)) + 50) 100
  if value ≤ 0 then 1 else value.toNat

/-- `game_manager::init_game`: session reset (the source also calls
`srand(global_timer)`; seeding is modelled by the `rand` input stream). -/
def init_game (s : GameState) (inp : Inputs) : GameState :=
  { s with mode := Mode.playing, score := 0, position := 0, bar_count := 0,
           bar_speed_recip := calc_speed_recip 0 inp.rand,
           button_invalid_time := 0 }

/-- Round-completion branch of `game_manager::playing` (`m_position >= 19`):
high-score comparison, flag marking, transition to ScoreBlink. -/
def finish_round (s : GameState) : GameState :=
  let s1 :=
    if s.score > get_high_score s.hs then
      { s with update_hs_flag := true,
               hs := (update_high_score s.hs (s.score % 256)).1 }
    else
      { s with update_hs_flag := s.score == MAX_SCORE }
  { s1 with mode := Mode.scoreBlink, blink_count := 0 }

/-- Button-press scoring and lockout bookkeeping at the tail of
`game_manager::playing` (runs only when the round did not complete). -/
def press_lockout (s : GameState) (inp : Inputs) : GameState :=
  let s1 :=
    if 16 ≤ s.position ∧ s.button_invalid_time = 0 ∧ inp.pressPlay = true then
      let sc0 := s.score + 1
      let sc := if sc0 > MAX_SCORE then MAX_SCORE else sc0
      { s with score := sc, position := 0, bar_count := 0,
               bar_speed_recip := calc_speed_recip sc inp.rand }
    else s
  if inp.pressPlay = true then
    { s1 with button_invalid_time := FRAME_PER_SEC / 10 }
  else if 0 < s1.button_invalid_time then
    { s1 with button_invalid_time := s1.button_invalid_time - 1 }
  else s1

/-- `game_manager::playing`: render score and bar, advance the dwell counter
and position, finish the round at position 19 (early return), otherwise run
scoring and lockout bookkeeping. -/
def playing (s : GameState) (inp : Inputs) : GameState × TickOut :=
  let out : TickOut :=
    { disp := DispCmd.showNum s.score,
      bar := if s.position < 10 then BarCmd.setPos s.position
             else if s.position < 19 then BarCmd.setPos (19 - 1 - s.position)
             else BarCmd.setPos 0 }
  let s1 := { s with bar_count := s.bar_count + 1 }
  if s1.bar_count ≥ s1.bar_speed_recip then
    let s2 := { s1 with bar_count := 0, position := s1.position + 1 }
    if s2.position ≥ 19 then
      (finish_round s2, out)
    else
      (press_lockout s2 inp, out)
  else
    (press_lockout s1 inp, out)

/-- `game_manager::show_score_blink`: blink the score (on for the first half
of each one-second period), erase the bar or — once `m_blink_count`
exceeds one second, when a new high score was marked — flash it to a random
position every `FRAME_PER_SEC / 20` ticks; leave to ShowingScore after
`FRAME_PER_SEC * 3` ticks. -/
def show_score_blink (s : GameState) (inp : Inputs) : GameState × TickOut :=
  ({ s with
      blink_count := s.blink_count + 1,
      mode := if s.blink_count + 1 ≥ FRAME_PER_SEC * 3 then Mode.showingScore
              else Mode.scoreBlink },
   { disp := if s.blink_count % FRAME_PER_SEC < FRAME_PER_SEC / 2 then
               DispCmd.showNum s.score
             else DispCmd.blank,
     bar := if s.blink_count > FRAME_PER_SEC ∧ s.update_hs_flag = true then
              (if s.blink_count % (FRAME_PER_SEC / 20) = 0 then
                 BarCmd.setPos (inp.rand % 10)
               else BarCmd.keep)
            else BarCmd.eraseBar })

/-- `game_manager::ready_to_start`. -/
def ready_to_start (s : GameState) (inp : Inputs) : GameState × TickOut :=
  let out : TickOut := { disp := DispCmd.showNum 0, bar := BarCmd.setPos 0 }
  let s1 := if inp.pressErase = true then { s with hs := (erase_hight_score s.hs).1 } else s
  if inp.pressPlay = true then (init_game s1 inp, out)
  else if inp.pressHS = true then ({ s1 with mode := Mode.showingHighScore }, out)
  else (s1, out)

/-- `game_manager::show_high_score` (makes no bar call). -/
def show_high_score (s : GameState) (inp : Inputs) : GameState × TickOut :=
  let out : TickOut := { disp := DispCmd.showNum (get_high_score s.hs), bar := BarCmd.keep }
  let s1 := if inp.pressErase = true then { s with hs := (erase_hight_score s.hs).1 } else s
  if inp.pressPlay = true then (init_game s1 inp, out)
  else (s1, out)

/-- `game_manager::show_score`. -/
def show_score (s : GameState) (inp : Inputs) : GameState × TickOut :=
  let out : TickOut := { disp := DispCmd.showNum s.score, bar := BarCmd.setPos 0 }
  let s1 := if inp.pressErase = true then { s with hs := (erase_hight_score s.hs).1 } else s
  if inp.pressPlay = true then (init_game s1 inp, out)
  else if inp.pressHS = true then ({ s1 with mode := Mode.showingHighScore }, out)
  else (s1, out)

/-- `game_manager::update`: dispatch on the current state. -/
def game_update (s : GameState) (inp : Inputs) : GameState × TickOut :=
  match s.mode with
  | Mode.readyToStart => ready_to_start s inp
  | Mode.showingHighScore => show_high_score s inp
  | Mode.playing => playing s inp
  | Mode.scoreBlink => show_score_blink s inp
  | Mode.showingScore => show_score s inp

/-- Invariant: while in the Playing state, `m_position` is at most 18 (the
handler transitions out before a tick can begin at 19). -/
def PlayingInv (s : GameState) : Prop :=
  s.mode = Mode.playing → s.position ≤ 18

/-- Speed reciprocal as the specification writes it:
`max(1, ((30 - Score/5) * (80 + jitter) + 50) / 100)` over naturals (all
operands are non-negative for in-range scores, so truncating division is
`Nat` division). -/
def speed_recip_spec (score jitter : Nat) : Nat :=
  max 1 (((30 - score / 5) * (80 + jitter) + 50) / 100)

/-- Example ScoreBlink state used to instantiate theorem witnesses: blink
count 523 (past one second), new-high-score flag set. -/
def demoBlink : GameState :=
  { mode := Mode.scoreBlink, score := 42, position := 19, bar_count := 0,
    bar_speed_recip := 7, button_invalid_time := 0, update_hs_flag := true,
    blink_count := 523, hs := { mem := 42, eeprom := 42 } }

/-- Example input record with no switch pressed. -/
def demoIdle : Inputs :=
  { pressPlay := false, pressHS := false, pressErase := false, rand := 37 }

/-- Example input record with the play switch pressed. -/
def demoPress : Inputs :=
  { pressPlay := true, pressHS := false, pressErase := false, rand := 37 }

/-- Example ShowingScore state (score 50) used by C10. -/
def demoShow : GameState :=
  { mode := Mode.showingScore, score := 50, position := 19, bar_count := 0,
    bar_speed_recip := 5, button_invalid_time := 0, update_hs_flag := true,
    blink_count := 1500, hs := { mem := 50, eeprom := 50 } }

/-- Predicate on the multiplexed-display state: at most one digit-select
(cathode) line is enabled. -/
def AtMostOneLit {d : Nat} (s : seven_segments_dynamic d) : Prop :=
  ∀ i j, s.cathodeLow i = true → s.cathodeLow j = true → i = j

/-- Example two-digit display state used to instantiate witnesses: value 42
latched, slot 0 currently enabled. -/
def c8demo : seven_segments_dynamic 2 :=
  { display := { pattern := 0 }, cathodeLow := fun i => decide (i = 0),
    valid := true, value := 42, now_digit := 0 }

/-- Example Playing state at position 17 (display index 1), lockout clear:
a press on this tick scores. -/
def demoWin17 : GameState :=
  { mode := Mode.playing, score := 3, position := 17, bar_count := 0,
    bar_speed_recip := 5, button_invalid_time := 0, update_hs_flag := false,
    blink_count := 0, hs := { mem := 10, eeprom := 10 } }

/-- Example Playing state about to complete the round: position 18 with the
dwell counter one tick from the threshold, score 50 against high score 40. -/
def demoEnd18 : GameState :=
  { mode := Mode.playing, score := 50, position := 18, bar_count := 4,
    bar_speed_recip := 5, button_invalid_time := 3, update_hs_flag := false,
    blink_count := 7, hs := { mem := 40, eeprom := 40 } }

/-- C4: for every Score in [0,99] and jitter in [0,40), the computed speed
reciprocal equals the specification's `max(1, ((30 - Score/5) * (80 + jitter)
+ 50) / 100)` with truncating division, and is always at least 1. -/
theorem C4_speed_recip : ∀ score ≤ 99, ∀ j < 40,
    calc_speed_recip score j = speed_recip_spec score j ∧
    1 ≤ calc_speed_recip score j := by decide

/-- Witness for C4 at Score = 40, jitter = 13. -/
theorem C4_speed_recip_witness :
    calc_speed_recip 40 13 = speed_recip_spec 40 13 ∧ 1 ≤ calc_speed_recip 40 13 :=
  C4_speed_recip 40 (by decide) 13 (by decide)

/-- C7: `get` returns the cached value; `update` changes the cache and issues
a durable write exactly when the candidate strictly exceeds the current
value, and changes nothing otherwise; `erase` zeroes and writes exactly when
the current value is non-zero, and is a complete no-op at zero. -/
theorem C7_store_ops (st : HighScoreStore) (c : Nat) :
    get_high_score st = st.mem ∧
    (c > st.mem → update_high_score st c = ({ mem := c, eeprom := c }, true)) ∧
    (¬ c > st.mem → update_high_score st c = (st, false)) ∧
    (st.mem ≠ 0 → erase_hight_score st = ({ mem := 0, eeprom := 0 }, true)) ∧
    (st.mem = 0 → erase_hight_score st = (st, false)) := by
  refine ⟨rfl, ?_, ?_, ?_, ?_⟩ <;> intro h <;>
    simp [update_high_score, erase_hight_score, h]

/-- Witness for C7 at the store value 30 and the candidate 50. -/
theorem C7_store_ops_witness :
    get_high_score { mem := 30, eeprom := 30 } = 30 ∧
    (50 > 30 → update_high_score { mem := 30, eeprom := 30 } 50 =
      ({ mem := 50, eeprom := 50 }, true)) ∧
    (¬ 50 > 30 → update_high_score { mem := 30, eeprom := 30 } 50 =
      ({ mem := 30, eeprom := 30 }, false)) ∧
    ((30 : Nat) ≠ 0 → erase_hight_score { mem := 30, eeprom := 30 } =
      ({ mem := 0, eeprom := 0 }, true)) ∧
    ((30 : Nat) = 0 → erase_hight_score { mem := 30, eeprom := 30 } =
      ({ mem := 30, eeprom := 30 }, false)) :=
  C7_store_ops { mem := 30, eeprom := 30 } 50

/-- C9 counterexample: loading from a corrupted or erased cell (byte 0xFF)
puts 255 in memory — the value is neither defaulted to zero nor bounded by
MAX_SCORE. -/
theorem C9_cex :
    (high_score_manager_init 255).mem = 255 ∧
    ¬ (high_score_manager_init 255).mem ≤ MAX_SCORE ∧
    (high_score_manager_init 255).mem ≠ 0 := by decide

/-- C9 amended: the startup load copies the raw stored byte into memory with
no validation or defaulting (a cell holding the flash-time initializer 0
loads as 0); the in-memory value stays bounded by MAX_SCORE only because the
store operations preserve that bound for candidates at most MAX_SCORE. -/
theorem C9_raw_load (b : Nat) (hb : b < 256) (st : HighScoreStore) (c : Nat)
    (hst : st.mem ≤ MAX_SCORE) (hc : c ≤ MAX_SCORE) :
    high_score_manager_init b = { mem := b, eeprom := b } ∧
    (high_score_manager_init 0).mem = 0 ∧
    (update_high_score st c).1.mem ≤ MAX_SCORE ∧
    (erase_hight_score st).1.mem ≤ MAX_SCORE := by
  refine ⟨?_, by decide, ?_, ?_⟩
  · simp [high_score_manager_init, Nat.mod_eq_of_lt hb]
  · unfold update_high_score
    split <;> simpa
  · unfold erase_hight_score
    split <;> simp [MAX_SCORE]
    omega

/-- Witness for C9's amended statement at byte 255, store value 40,
candidate 77. -/
theorem C9_raw_load_witness :
    high_score_manager_init 255 = { mem := 255, eeprom := 255 } ∧
    (high_score_manager_init 0).mem = 0 ∧
    (update_high_score { mem := 40, eeprom := 40 } 77).1.mem ≤ MAX_SCORE ∧
    (erase_hight_score { mem := 40, eeprom := 40 }).1.mem ≤ MAX_SCORE :=
  C9_raw_load 255 (by decide) { mem := 40, eeprom := 40 } 77 (by decide) (by decide)


/-- C6: in ScoreBlink the display shows the score exactly on ticks whose
blink count modulo the tick rate lies in the first half-second and is blank
otherwise; the bar is erased unless the blink count has passed one second
with the new-high-score flag set, in which case it is set to a pseudo-random
position in [0,9] on every `FRAME_PER_SEC / 20`-th tick (20 times per
second) and left alone in between; the blink counter increments each tick
and the state leaves to ShowingScore exactly when it reaches
`FRAME_PER_SEC * 3`. -/
theorem C6_score_blink (s : GameState) (inp : Inputs) (hm : s.mode = Mode.scoreBlink) :
    ((game_update s inp).2.disp =
      if s.blink_count % FRAME_PER_SEC < FRAME_PER_SEC / 2 then DispCmd.showNum s.score
      else DispCmd.blank) ∧
    (¬ (s.blink_count > FRAME_PER_SEC ∧ s.update_hs_flag = true) →
      (game_update s inp).2.bar = BarCmd.eraseBar) ∧
    (s.blink_count > FRAME_PER_SEC → s.update_hs_flag = true →
      s.blink_count % (FRAME_PER_SEC / 20) = 0 →
      (game_update s inp).2.bar = BarCmd.setPos (inp.rand % 10) ∧ inp.rand % 10 ≤ 9) ∧
    (s.blink_count > FRAME_PER_SEC → s.update_hs_flag = true →
      s.blink_count % (FRAME_PER_SEC / 20) ≠ 0 →
      (game_update s inp).2.bar = BarCmd.keep) ∧
    ((game_update s inp).1.blink_count = s.blink_count + 1) ∧
    ((game_update s inp).1.score = s.score) ∧
    ((game_update s inp).1.mode =
      if s.blink_count + 1 ≥ FRAME_PER_SEC * 3 then Mode.showingScore
      else Mode.scoreBlink) := by
  rcases s with ⟨m, sc, pos, bc, recip, lock, flag, blink, hsS⟩
  cases hm
  refine ⟨rfl, fun h => if_neg h, fun h1 h2 h3 => ?_, fun h1 h2 h3 => ?_, rfl, rfl, rfl⟩
  · exact ⟨(if_pos ⟨h1, h2⟩).trans (if_pos h3),
      Nat.le_of_lt_succ (Nat.mod_lt _ (by decide))⟩
  · exact (if_pos ⟨h1, h2⟩).trans (if_neg h3)

/-- Witness for C6 on the state `demoBlink`. -/
theorem C6_score_blink_witness :
    ((game_update demoBlink demoIdle).2.disp =
      if demoBlink.blink_count % FRAME_PER_SEC < FRAME_PER_SEC / 2 then
        DispCmd.showNum demoBlink.score
      else DispCmd.blank) ∧
    (¬ (demoBlink.blink_count > FRAME_PER_SEC ∧ demoBlink.update_hs_flag = true) →
      (game_update demoBlink demoIdle).2.bar = BarCmd.eraseBar) ∧
    (demoBlink.blink_count > FRAME_PER_SEC → demoBlink.update_hs_flag = true →
      demoBlink.blink_count % (FRAME_PER_SEC / 20) = 0 →
      (game_update demoBlink demoIdle).2.bar = BarCmd.setPos (demoIdle.rand % 10) ∧
        demoIdle.rand % 10 ≤ 9) ∧
    (demoBlink.blink_count > FRAME_PER_SEC → demoBlink.update_hs_flag = true →
      demoBlink.blink_count % (FRAME_PER_SEC / 20) ≠ 0 →
      (game_update demoBlink demoIdle).2.bar = BarCmd.keep) ∧
    ((game_update demoBlink demoIdle).1.blink_count = demoBlink.blink_count + 1) ∧
    ((game_update demoBlink demoIdle).1.score = demoBlink.score) ∧
    ((game_update demoBlink demoIdle).1.mode =
      if demoBlink.blink_count + 1 ≥ FRAME_PER_SEC * 3 then Mode.showingScore
      else Mode.scoreBlink) :=
  C6_score_blink demoBlink demoIdle rfl


/-- C10 counterexample: a ShowingScore tick with the play input asserted does
not leave Score unchanged — the handler resets the session, so the score 50
becomes 0. -/
theorem C10_cex : (show_score demoShow demoPress).1.score ≠ demoShow.score := by decide

/-- C10 amended: the ScoreBlink handler unconditionally leaves Score,
Position, the dwell counter, Speed Reciprocal and Lockout unchanged, and the
ShowingScore and ShowingHighScore handlers leave them unchanged whenever the
play input is not asserted (when it is asserted they reset the session on the
way into Playing); the score displayed by ShowingScore, and by ScoreBlink in
its on-phase, is the score current at tick entry. -/
theorem C10_show_states_frame (s : GameState) (inp : Inputs) :
    ((show_score_blink s inp).1.score = s.score ∧
     (show_score_blink s inp).1.position = s.position ∧
     (show_score_blink s inp).1.bar_count = s.bar_count ∧
     (show_score_blink s inp).1.bar_speed_recip = s.bar_speed_recip ∧
     (show_score_blink s inp).1.button_invalid_time = s.button_invalid_time ∧
     (show_score_blink s inp).1.update_hs_flag = s.update_hs_flag ∧
     (show_score_blink s inp).1.hs = s.hs) ∧
    (inp.pressPlay = false →
     (show_score s inp).1.score = s.score ∧
     (show_score s inp).1.position = s.position ∧
     (show_score s inp).1.bar_count = s.bar_count ∧
     (show_score s inp).1.bar_speed_recip = s.bar_speed_recip ∧
     (show_score s inp).1.button_invalid_time = s.button_invalid_time ∧
     (show_high_score s inp).1.score = s.score ∧
     (show_high_score s inp).1.position = s.position ∧
     (show_high_score s inp).1.bar_count = s.bar_count ∧
     (show_high_score s inp).1.bar_speed_recip = s.bar_speed_recip ∧
     (show_high_score s inp).1.button_invalid_time = s.button_invalid_time) ∧
    (inp.pressPlay = true →
     (show_score s inp).1.score = 0 ∧ (show_score s inp).1.mode = Mode.playing ∧
     (show_high_score s inp).1.score = 0 ∧
     (show_high_score s inp).1.mode = Mode.playing) ∧
    ((show_score s inp).2.disp = DispCmd.showNum s.score) ∧
    (s.blink_count % FRAME_PER_SEC < FRAME_PER_SEC / 2 →
     (show_score_blink s inp).2.disp = DispCmd.showNum s.score) := by
  refine ⟨⟨rfl, rfl, rfl, rfl, rfl, rfl, rfl⟩, ?_, ?_, ?_, fun h => if_pos h⟩
  · intro h
    simp only [show_score, show_high_score, h, Bool.false_eq_true, if_false]
    split <;> split <;> simp
  · intro h
    simp only [show_score, show_high_score, h, if_true]
    split <;> simp [init_game]
  · unfold show_score
    split <;> (repeat' split) <;> rfl

/-- Witness for C10's amended statement at the state `demoShow` with no input
pressed. -/
theorem C10_show_states_frame_witness :
    ((show_score_blink demoShow demoIdle).1.score = demoShow.score ∧
     (show_score_blink demoShow demoIdle).1.position = demoShow.position ∧
     (show_score_blink demoShow demoIdle).1.bar_count = demoShow.bar_count ∧
     (show_score_blink demoShow demoIdle).1.bar_speed_recip = demoShow.bar_speed_recip ∧
     (show_score_blink demoShow demoIdle).1.button_invalid_time = demoShow.button_invalid_time ∧
     (show_score_blink demoShow demoIdle).1.update_hs_flag = demoShow.update_hs_flag ∧
     (show_score_blink demoShow demoIdle).1.hs = demoShow.hs) ∧
    (demoIdle.pressPlay = false →
     (show_score demoShow demoIdle).1.score = demoShow.score ∧
     (show_score demoShow demoIdle).1.position = demoShow.position ∧
     (show_score demoShow demoIdle).1.bar_count = demoShow.bar_count ∧
     (show_score demoShow demoIdle).1.bar_speed_recip = demoShow.bar_speed_recip ∧
     (show_score demoShow demoIdle).1.button_invalid_time = demoShow.button_invalid_time ∧
     (show_high_score demoShow demoIdle).1.score = demoShow.score ∧
     (show_high_score demoShow demoIdle).1.position = demoShow.position ∧
     (show_high_score demoShow demoIdle).1.bar_count = demoShow.bar_count ∧
     (show_high_score demoShow demoIdle).1.bar_speed_recip = demoShow.bar_speed_recip ∧
     (show_high_score demoShow demoIdle).1.button_invalid_time = demoShow.button_invalid_time) ∧
    (demoIdle.pressPlay = true →
     (show_score demoShow demoIdle).1.score = 0 ∧
     (show_score demoShow demoIdle).1.mode = Mode.playing ∧
     (show_high_score demoShow demoIdle).1.score = 0 ∧
     (show_high_score demoShow demoIdle).1.mode = Mode.playing) ∧
    ((show_score demoShow demoIdle).2.disp = DispCmd.showNum demoShow.score) ∧
    (demoShow.blink_count % FRAME_PER_SEC < FRAME_PER_SEC / 2 →
     (show_score_blink demoShow demoIdle).2.disp = DispCmd.showNum demoShow.score) :=
  C10_show_states_frame demoShow demoIdle

/-- C8: a `change_digit` invocation first disables the previously active
select line, then advances the slot index wrapping modulo the digit count
and (when a value is latched) renders digit `value / 10^slot mod 10`, and
only then enables the new slot's line; at entry, after the disable, after
the advance, after the segment update, and at exit, at most one select line
is active — two lines are never enabled simultaneously, even transiently. -/
theorem C8_change_digit {d : Nat} (s : seven_segments_dynamic d)
    (hd : 1 ≤ d) (hnow : s.now_digit < d)
    (hact : ∀ i, s.cathodeLow i = true → i = s.now_digit) :
    AtMostOneLit s ∧
    AtMostOneLit s.cd_disable ∧
    AtMostOneLit s.cd_disable.cd_advance ∧
    AtMostOneLit s.cd_disable.cd_advance.cd_render ∧
    AtMostOneLit s.change_digit ∧
    s.change_digit.now_digit = (s.now_digit + 1) % d ∧
    s.change_digit.now_digit < d ∧
    (s.valid = true →
      s.change_digit.display =
        s.display.set_number (s.value / pow10 s.change_digit.now_digit % 10)) ∧
    (∀ i, s.change_digit.cathodeLow i = true → i = s.change_digit.now_digit) := by
  have hdis : ∀ i, s.cd_disable.cathodeLow i = false := by
    intro i
    show (if i = s.now_digit then false else s.cathodeLow i) = false
    split
    · rfl
    · next h =>
      cases hc : s.cathodeLow i
      · rfl
      · exact absurd (hact i hc) h
  have hfalse : ∀ (P : Prop) (i : Nat), s.cd_disable.cathodeLow i = true → P := by
    intro P i hi
    rw [hdis i] at hi
    exact absurd hi (by simp)
  have hren : s.cd_disable.cd_advance.cd_render.cathodeLow =
      s.cd_disable.cathodeLow := by
    unfold seven_segments_dynamic.cd_render
    split <;> rfl
  have hnd : s.change_digit.now_digit =
      (if s.now_digit + 1 = d then 0 else s.now_digit + 1) := by
    show s.cd_disable.cd_advance.cd_render.now_digit = _
    unfold seven_segments_dynamic.cd_render
    split <;> rfl
  have hadv : s.change_digit.now_digit = (s.now_digit + 1) % d := by
    rw [hnd]
    split
    · next h => rw [h, Nat.mod_self]
    · next h => rw [Nat.mod_eq_of_lt (by omega)]
  have henbF : ∀ i, i ≠ s.change_digit.now_digit →
      s.change_digit.cathodeLow i = false := by
    intro i hi
    have hi' : ¬ i = s.cd_disable.cd_advance.cd_render.now_digit := hi
    show (if i = s.cd_disable.cd_advance.cd_render.now_digit then true
          else s.cd_disable.cd_advance.cd_render.cathodeLow i) = false
    rw [if_neg hi', hren]
    exact hdis i
  have hlast : ∀ i, s.change_digit.cathodeLow i = true →
      i = s.change_digit.now_digit := by
    intro i hi
    by_cases h : i = s.change_digit.now_digit
    · exact h
    · rw [henbF i h] at hi
      exact absurd hi (by simp)
  refine ⟨fun i j hi hj => (hact i hi).trans (hact j hj).symm,
          fun i j hi _ => hfalse _ i hi,
          fun i j hi _ => hfalse _ i hi,
          fun i j hi _ => hfalse _ i (by rw [← hren]; exact hi),
          fun i j hi hj => (hlast i hi).trans (hlast j hj).symm,
          hadv, ?_, ?_, hlast⟩
  · rw [hadv]
    exact Nat.mod_lt _ (by omega)
  · intro hv
    rw [hnd]
    have hv' : s.cd_disable.cd_advance.valid = true := hv
    show s.cd_disable.cd_advance.cd_render.display = _
    unfold seven_segments_dynamic.cd_render
    rw [hv', if_pos rfl]
    rfl

/-- Witness for C8 on the concrete display state `c8demo`. -/
theorem C8_change_digit_witness :
    AtMostOneLit c8demo ∧
    AtMostOneLit c8demo.cd_disable ∧
    AtMostOneLit c8demo.cd_disable.cd_advance ∧
    AtMostOneLit c8demo.cd_disable.cd_advance.cd_render ∧
    AtMostOneLit c8demo.change_digit ∧
    c8demo.change_digit.now_digit = (c8demo.now_digit + 1) % 2 ∧
    c8demo.change_digit.now_digit < 2 ∧
    (c8demo.valid = true →
      c8demo.change_digit.display =
        c8demo.display.set_number (c8demo.value / pow10 c8demo.change_digit.now_digit % 10)) ∧
    (∀ i, c8demo.change_digit.cathodeLow i = true → i = c8demo.change_digit.now_digit) :=
  C8_change_digit c8demo (by decide) (by decide) (fun i h => of_decide_eq_true h)

/-- C2: on a Playing tick where the dwell counter reaches the speed
reciprocal and the position advances to 19, the state transitions to
ScoreBlink with blink counter 0 before any press logic runs — score and
lockout are untouched whatever the inputs; the new-high-score flag is set
(and the score persisted) exactly on a strict improvement, and otherwise
equals the perfect-score test `Score = MAX_SCORE`. -/
theorem C2_round_complete (s : GameState) (inp : Inputs)
    (hm : s.mode = Mode.playing)
    (hbc : s.bar_count + 1 ≥ s.bar_speed_recip)
    (hpos : s.position + 1 ≥ 19)
    (hsc : s.score ≤ MAX_SCORE) :
    (game_update s inp).1.mode = Mode.scoreBlink ∧
    (game_update s inp).1.blink_count = 0 ∧
    (game_update s inp).1.score = s.score ∧
    (game_update s inp).1.button_invalid_time = s.button_invalid_time ∧
    (s.score > get_high_score s.hs →
      (game_update s inp).1.update_hs_flag = true ∧
      (game_update s inp).1.hs.mem = s.score ∧
      (game_update s inp).1.hs.eeprom = s.score) ∧
    (¬ s.score > get_high_score s.hs →
      ((game_update s inp).1.update_hs_flag = true ↔ s.score = MAX_SCORE) ∧
      (game_update s inp).1.hs = s.hs) := by
  rcases s with ⟨m, sc, pos, bc, recip, lock, flag, blink, hsS⟩
  cases hm
  simp only [game_update, playing] at *
  rw [if_pos hbc, if_pos hpos]
  have hmod : sc % 256 = sc := Nat.mod_eq_of_lt (by simp [MAX_SCORE] at hsc; omega)
  simp only [finish_round, get_high_score, update_high_score, hmod] at *
  by_cases hgt : sc > hsS.mem
  · rw [if_pos hgt, if_pos hgt]
    simp [hgt]
  · rw [if_neg hgt]
    simp [hgt, Nat.beq_eq_true_eq]

/-- Characterization of `press_lockout` as a single record update, shared by
the Playing-state theorems. -/
theorem press_lockout_spec (s : GameState) (inp : Inputs) :
    press_lockout s inp =
      { s with
          score := if 16 ≤ s.position ∧ s.button_invalid_time = 0 ∧ inp.pressPlay = true
                   then min (s.score + 1) MAX_SCORE else s.score,
          position := if 16 ≤ s.position ∧ s.button_invalid_time = 0 ∧ inp.pressPlay = true
                   then 0 else s.position,
          bar_count := if 16 ≤ s.position ∧ s.button_invalid_time = 0 ∧ inp.pressPlay = true
                   then 0 else s.bar_count,
          bar_speed_recip := if 16 ≤ s.position ∧ s.button_invalid_time = 0 ∧ inp.pressPlay = true
                   then calc_speed_recip (min (s.score + 1) MAX_SCORE) inp.rand
                   else s.bar_speed_recip,
          button_invalid_time := if inp.pressPlay = true then FRAME_PER_SEC / 10
                   else s.button_invalid_time - 1 } := by
  rcases s with ⟨m, sc, pos, bc, recip, lock, flag, blink, hsS⟩
  have hmin : min (sc + 1) MAX_SCORE = if sc + 1 > MAX_SCORE then MAX_SCORE else sc + 1 := by
    simp only [MAX_SCORE, min_def]
    split_ifs <;> omega
  simp only [press_lockout, hmin]
  split_ifs with h1 h2 h3 <;>
    simp_all [GameState.mk.injEq]

/-- Witness for C2 on the state `demoEnd18` (score 50, high score 40),
with the play input asserted to confirm press logic is skipped. -/
theorem C2_round_complete_witness :
    (game_update demoEnd18 demoPress).1.mode = Mode.scoreBlink ∧
    (game_update demoEnd18 demoPress).1.blink_count = 0 ∧
    (game_update demoEnd18 demoPress).1.score = demoEnd18.score ∧
    (game_update demoEnd18 demoPress).1.button_invalid_time = demoEnd18.button_invalid_time ∧
    (demoEnd18.score > get_high_score demoEnd18.hs →
      (game_update demoEnd18 demoPress).1.update_hs_flag = true ∧
      (game_update demoEnd18 demoPress).1.hs.mem = demoEnd18.score ∧
      (game_update demoEnd18 demoPress).1.hs.eeprom = demoEnd18.score) ∧
    (¬ demoEnd18.score > get_high_score demoEnd18.hs →
      ((game_update demoEnd18 demoPress).1.update_hs_flag = true ↔ demoEnd18.score = MAX_SCORE) ∧
      (game_update demoEnd18 demoPress).1.hs = demoEnd18.hs) :=
  C2_round_complete demoEnd18 demoPress rfl (by decide) (by decide) (by decide)

/-- C1 counterexample: on the Playing state `demoWin17` (raw position 17) a
press scores — the score goes from 3 to 4 — while the bar index rendered
that tick is 1, which is not ≥ 6: the claim's "display index ≥ 6" gloss of
the scoring window contradicts the raw `Position ≥ 16` window the code
tests. -/
theorem C1_cex :
    (playing demoWin17 demoPress).1.score = demoWin17.score + 1 ∧
    (playing demoWin17 demoPress).2.bar = BarCmd.setPos 1 ∧
    ¬ 6 ≤ 19 - 1 - demoWin17.position := by decide

/-- C1 amended: on a Playing tick where Position does not reach 19, the
score becomes `min (Score + 1) MAX_SCORE` (so it is clamped and never
exceeds MAX_SCORE) precisely when the play input is asserted, Lockout = 0,
and the post-advance raw Position is ≥ 16 (display index ≤ 2); a scoring
press also resets Position and the dwell counter to 0 and recomputes the
speed reciprocal from the new score; otherwise all four fields are left
alone by the press logic (Position and the dwell counter carry only the
dwell-advance result). -/
theorem C1_press_scoring (s : GameState) (inp : Inputs)
    (hm : s.mode = Mode.playing)
    (hnc : ¬ (s.bar_count + 1 ≥ s.bar_speed_recip ∧ s.position + 1 ≥ 19)) :
    (game_update s inp).1.mode = Mode.playing ∧
    (16 ≤ (if s.bar_count + 1 ≥ s.bar_speed_recip then s.position + 1 else s.position) ∧
        s.button_invalid_time = 0 ∧ inp.pressPlay = true →
      (game_update s inp).1.score = min (s.score + 1) MAX_SCORE ∧
      (game_update s inp).1.position = 0 ∧
      (game_update s inp).1.bar_count = 0 ∧
      (game_update s inp).1.bar_speed_recip =
        calc_speed_recip (min (s.score + 1) MAX_SCORE) inp.rand) ∧
    (¬ (16 ≤ (if s.bar_count + 1 ≥ s.bar_speed_recip then s.position + 1 else s.position) ∧
        s.button_invalid_time = 0 ∧ inp.pressPlay = true) →
      (game_update s inp).1.score = s.score ∧
      (game_update s inp).1.position =
        (if s.bar_count + 1 ≥ s.bar_speed_recip then s.position + 1 else s.position) ∧
      (game_update s inp).1.bar_count =
        (if s.bar_count + 1 ≥ s.bar_speed_recip then 0 else s.bar_count + 1) ∧
      (game_update s inp).1.bar_speed_recip = s.bar_speed_recip) ∧
    (s.score ≤ MAX_SCORE → (game_update s inp).1.score ≤ MAX_SCORE) := by
  rcases s with ⟨m, sc, pos, bc, recip, lock, flag, blink, hsS⟩
  cases hm
  simp only [game_update, playing, press_lockout_spec]
  by_cases hbc : bc + 1 ≥ recip
  · have h19 : ¬ pos + 1 ≥ 19 := fun h => hnc ⟨hbc, h⟩
    simp only [if_pos hbc, if_neg h19]
    split_ifs with h <;> simp_all [MAX_SCORE]
  · simp only [if_neg hbc]
    split_ifs with h <;> simp_all [MAX_SCORE]

/-- Witness for C1's amended statement on `demoWin17` with the play input
asserted: the press scores. -/
theorem C1_press_scoring_witness :
    (game_update demoWin17 demoPress).1.mode = Mode.playing ∧
    (16 ≤ (if demoWin17.bar_count + 1 ≥ demoWin17.bar_speed_recip then demoWin17.position + 1
           else demoWin17.position) ∧
        demoWin17.button_invalid_time = 0 ∧ demoPress.pressPlay = true →
      (game_update demoWin17 demoPress).1.score = min (demoWin17.score + 1) MAX_SCORE ∧
      (game_update demoWin17 demoPress).1.position = 0 ∧
      (game_update demoWin17 demoPress).1.bar_count = 0 ∧
      (game_update demoWin17 demoPress).1.bar_speed_recip =
        calc_speed_recip (min (demoWin17.score + 1) MAX_SCORE) demoPress.rand) ∧
    (¬ (16 ≤ (if demoWin17.bar_count + 1 ≥ demoWin17.bar_speed_recip then demoWin17.position + 1
           else demoWin17.position) ∧
        demoWin17.button_invalid_time = 0 ∧ demoPress.pressPlay = true) →
      (game_update demoWin17 demoPress).1.score = demoWin17.score ∧
      (game_update demoWin17 demoPress).1.position =
        (if demoWin17.bar_count + 1 ≥ demoWin17.bar_speed_recip then demoWin17.position + 1
         else demoWin17.position) ∧
      (game_update demoWin17 demoPress).1.bar_count =
        (if demoWin17.bar_count + 1 ≥ demoWin17.bar_speed_recip then 0
         else demoWin17.bar_count + 1) ∧
      (game_update demoWin17 demoPress).1.bar_speed_recip = demoWin17.bar_speed_recip) ∧
    (demoWin17.score ≤ MAX_SCORE → (game_update demoWin17 demoPress).1.score ≤ MAX_SCORE) :=
  C1_press_scoring demoWin17 demoPress rfl (by decide)

/-- Dispatch fact shared by the Playing-state theorems. -/
theorem game_update_playing (s : GameState) (inp : Inputs)
    (hm : s.mode = Mode.playing) : game_update s inp = playing s inp := by
  rcases s with ⟨m, sc, pos, bc, recip, lock, flag, blink, hsS⟩
  cases hm
  rfl

/-- A Playing tick entered with a non-zero lockout cannot change the score. -/
theorem playing_score_locked (s : GameState) (inp : Inputs)
    (hl : s.button_invalid_time ≠ 0) : (playing s inp).1.score = s.score := by
  rcases s with ⟨m, sc, pos, bc, recip, lock, flag, blink, hsS⟩
  simp only [playing, press_lockout_spec, finish_round, update_high_score,
    get_high_score]
  split_ifs <;> simp_all

/-- Mode and lockout bookkeeping of a Playing tick that does not complete
the round. -/
theorem playing_no_complete (s : GameState) (inp : Inputs)
    (hnc : ¬ (s.bar_count + 1 ≥ s.bar_speed_recip ∧ s.position + 1 ≥ 19)) :
    (playing s inp).1.mode = s.mode ∧
    (playing s inp).1.button_invalid_time =
      (if inp.pressPlay = true then FRAME_PER_SEC / 10
       else s.button_invalid_time - 1) := by
  rcases s with ⟨m, sc, pos, bc, recip, lock, flag, blink, hsS⟩
  simp only [playing, press_lockout_spec]
  by_cases hbc : bc + 1 ≥ recip
  · have h19 : ¬ pos + 1 ≥ 19 := fun h => hnc ⟨hbc, h⟩
    rw [if_pos hbc, if_neg h19]
    exact ⟨rfl, rfl⟩
  · rw [if_neg hbc]
    exact ⟨rfl, rfl⟩

/-- C3 counterexample: on the Playing tick that completes the round
(`demoEnd18`, play input asserted) the handler returns before the lockout
bookkeeping, so Lockout is left at 3 instead of being set to the debounce
window `FRAME_PER_SEC / 10`. -/
theorem C3_cex :
    (playing demoEnd18 demoPress).1.button_invalid_time ≠ FRAME_PER_SEC / 10 := by
  decide

/-- C3 amended: on every Playing tick that does not complete the round,
Lockout is set to `FRAME_PER_SEC / 10` when the play input is asserted and
decremented toward 0 (truncated at 0) when it is not; consequently, after
any such tick with the play input asserted — in particular a scoring press —
a second tick cannot change the score while the input is still asserted. -/
theorem C3_lockout_debounce (s : GameState) (inp inp2 : Inputs)
    (hm : s.mode = Mode.playing)
    (hnc : ¬ (s.bar_count + 1 ≥ s.bar_speed_recip ∧ s.position + 1 ≥ 19)) :
    (inp.pressPlay = true →
      (game_update s inp).1.button_invalid_time = FRAME_PER_SEC / 10) ∧
    (inp.pressPlay = false →
      (game_update s inp).1.button_invalid_time = s.button_invalid_time - 1) ∧
    (inp.pressPlay = true →
      (game_update (game_update s inp).1 inp2).1.score = (game_update s inp).1.score) := by
  rw [game_update_playing s inp hm]
  have h := playing_no_complete s inp hnc
  refine ⟨fun hp => by rw [h.2, if_pos hp], fun hp => by rw [h.2, if_neg (by simp [hp])],
    fun hp => ?_⟩
  rw [game_update_playing _ inp2 (by rw [h.1, hm])]
  exact playing_score_locked _ inp2 (by rw [h.2, if_pos hp]; decide)

/-- Witness for C3's amended statement on `demoWin17` with the play input
asserted on both ticks. -/
theorem C3_lockout_debounce_witness :
    (demoPress.pressPlay = true →
      (game_update demoWin17 demoPress).1.button_invalid_time = FRAME_PER_SEC / 10) ∧
    (demoPress.pressPlay = false →
      (game_update demoWin17 demoPress).1.button_invalid_time =
        demoWin17.button_invalid_time - 1) ∧
    (demoPress.pressPlay = true →
      (game_update (game_update demoWin17 demoPress).1 demoPress).1.score =
        (game_update demoWin17 demoPress).1.score) :=
  C3_lockout_debounce demoWin17 demoPress demoPress rfl (by decide)

/-- C5: the Playing-state invariant "Position at most 18" is preserved by
every tick of the state machine, and under it the Playing render step passes
the Bar Indicator exactly the index `p` for forward travel (p < 10) and
`18 - p` for return travel, always within [0,9] — position 19 is never
rendered. -/
theorem C5_bar_render (s : GameState) (inp : Inputs) (hInv : PlayingInv s) :
    PlayingInv (game_update s inp).1 ∧
    (s.mode = Mode.playing →
      (game_update s inp).2.bar =
        BarCmd.setPos (if s.position < 10 then s.position else 19 - 1 - s.position) ∧
      (if s.position < 10 then s.position else 19 - 1 - s.position) ≤ 9) := by
  rcases s with ⟨m, sc, pos, bc, recip, lock, flag, blink, hsS⟩
  cases m
  case playing =>
    have hpos : pos ≤ 18 := hInv rfl
    refine ⟨?_, fun _ => ⟨?_, ?_⟩⟩
    · intro h'
      simp only [game_update, playing, press_lockout_spec, finish_round] at h' ⊢
      split_ifs at h' ⊢ <;> simp_all <;> omega
    · simp only [game_update, playing]
      split_ifs <;> simp_all <;> omega
    · split_ifs <;> omega
  all_goals refine ⟨?_, fun h => absurd h (by simp)⟩
  all_goals intro h'
  all_goals simp only [game_update, ready_to_start, show_high_score, show_score,
    show_score_blink, init_game] at h' ⊢
  all_goals split_ifs at h' ⊢ <;> simp_all

/-- Witness for C5 on `demoWin17` (Playing, position 17) with no input. -/
theorem C5_bar_render_witness :
    PlayingInv (game_update demoWin17 demoIdle).1 ∧
    (demoWin17.mode = Mode.playing →
      (game_update demoWin17 demoIdle).2.bar =
        BarCmd.setPos (if demoWin17.position < 10 then demoWin17.position
                       else 19 - 1 - demoWin17.position) ∧
      (if demoWin17.position < 10 then demoWin17.position
       else 19 - 1 - demoWin17.position) ≤ 9) :=
  C5_bar_render demoWin17 demoIdle (fun _ => by decide)
